import Mathlib

/-!
Verification of the optiroute route-optimization service
(`backend/app/services/routing.py`, `backend/app/core/validation.py`,
`backend/app/api/endpoints.py`).

The combinatorial solver itself (OR-Tools) is an external library; it is
modelled by its observable contract (a capacity-respecting partition of the
non-depot stops into per-vehicle visit orders), and the code of this
repository — distance-matrix construction, input validation, solution
extraction — is embedded directly from the source.

Floating-point demands, capacities and coordinates are modelled as rationals
(every float value is a rational); the real-valued haversine formula is
modelled over `ℝ`.
-/

/-- Python's `int()` applied to a rational: truncation toward zero. -/
def pyInt (q : ℚ) : ℤ := q.num.tdiv (q.den : ℤ)

deriving instance DecidableEq for Except

/-- `Location` from `routing.py` (dataclass `Location`). -/
structure Location where
  id : String
  name : String
  latitude : ℚ
  longitude : ℚ
  demand : ℚ
deriving DecidableEq

/-- `Vehicle` from `routing.py` (dataclass `Vehicle`). -/
structure Vehicle where
  id : String
  capacity : ℚ
  cost_per_km : ℚ
deriving DecidableEq

instance : Inhabited Vehicle := ⟨⟨"", 1000, 1⟩⟩

/-! ### Distance matrices (`routing.py` lines 40–135) -/

/-- `_calculate_haversine_matrix`: builds the fallback matrix from the
pairwise great-circle distance (in km); `dist i j` stands for the value of
`self._haversine_distance` on the coordinates of locations `i` and `j`.
Diagonal entries are `0`; off-diagonal entries are `int(dist_km * 1000)`. -/
def calculate_haversine_matrix (n : Nat) (dist : Nat → Nat → ℚ) : List (List ℤ) :=
  (List.range n).map fun i => (List.range n).map fun j =>
    if i = j then 0 else pyInt (dist i j * 1000)

/-- From the spec's words (§4.2): the fallback matrix with off-diagonal
entries `round(km * 1000)` — stated for comparison with
`calculate_haversine_matrix`, which the source builds with `int(...)`. -/
def haversine_matrix_spec (n : Nat) (dist : Nat → Nat → ℚ) : List (List ℤ) :=
  (List.range n).map fun i => (List.range n).map fun j =>
    if i = j then 0 else round (dist i j * 1000)

/-- Outcome of the OSRM table query in `_get_road_distance_matrix`:
either a parsed `distances` matrix (entries `none` = unreachable), or any
of the failure modes (network error, non-200 status, missing `distances`
field, malformed data), carried as a message. -/
inductive OsrmOutcome where
  | success (distances : List (List (Option ℚ)))
  | failure (msg : String)

/-- `_get_road_distance_matrix`: for more than 100 locations it returns the
haversine fallback directly; otherwise it converts the OSRM response
(`int(d)` per entry, `None` ↦ `999999999`) or re-raises the failure. -/
def get_road_distance_matrix (n : Nat) (dist : Nat → Nat → ℚ)
    (osrm : OsrmOutcome) : Except String (List (List ℤ)) :=
  if n > 100 then .ok (calculate_haversine_matrix n dist)
  else
    match osrm with
    | .failure msg => .error msg
    | .success rows =>
        .ok (rows.map fun row => row.map fun d =>
          match d with
          | some q => pyInt q
          | none => 999999999)

/-- `calculate_distance_matrix`: tries the road matrix and falls back to the
haversine matrix on any raised exception. -/
def calculate_distance_matrix (n : Nat) (dist : Nat → Nat → ℚ)
    (osrm : OsrmOutcome) : List (List ℤ) :=
  match get_road_distance_matrix n dist osrm with
  | .ok m => m
  | .error _ => calculate_haversine_matrix n dist

/-! ### The great-circle distance (`_haversine_distance`, lines 137–163) -/

/-- `_haversine_distance`: the haversine great-circle distance in km,
modelled over the reals (`math.radians x = x * π / 180`). -/
noncomputable def haversine_distance (lat1 lon1 lat2 lon2 : ℝ) : ℝ :=
  let lat1_rad := lat1 * (Real.pi / 180)
  let lon1_rad := lon1 * (Real.pi / 180)
  let lat2_rad := lat2 * (Real.pi / 180)
  let lon2_rad := lon2 * (Real.pi / 180)
  let dlat := lat2_rad - lat1_rad
  let dlon := lon2_rad - lon1_rad
  let a := Real.sin (dlat / 2) ^ 2 +
    Real.cos lat1_rad * Real.cos lat2_rad * Real.sin (dlon / 2) ^ 2
  6371 * (2 * Real.arcsin (Real.sqrt a))

/-! ### Input validation (`core/validation.py`, `api/endpoints.py`) -/

/-- `validate_coordinates` from `core/validation.py`. -/
def validate_coordinates (lat lon : ℚ) : Except String (ℚ × ℚ) :=
  if ¬(-90 ≤ lat ∧ lat ≤ 90) then .error "Latitude must be between -90 and 90"
  else if ¬(-180 ≤ lon ∧ lon ≤ 180) then .error "Longitude must be between -180 and 180"
  else .ok (lat, lon)

/-- `validate_demand` from `core/validation.py`. -/
def validate_demand (demand : ℚ) : Except String ℚ :=
  if demand < 0 then .error "Demand must be non-negative"
  else if demand > 1000000 then .error "Demand exceeds maximum allowed value"
  else .ok demand

/-- `validate_capacity` from `core/validation.py`. -/
def validate_capacity (capacity : ℚ) : Except String ℚ :=
  if capacity ≤ 0 then .error "Capacity must be positive"
  else if capacity > 100000 then .error "Capacity exceeds maximum allowed value"
  else .ok capacity

/-- `validate_locations_count` from `core/validation.py` (at most 100). -/
def validate_locations_count (n : Nat) : Except String Unit :=
  if n < 2 then .error "At least 2 locations required for routing"
  else if n > 100 then .error "Maximum 100 locations allowed"
  else .ok ()

/-- `LocationInput` from `schemas.py`. -/
structure LocationInput where
  id : String
  name : String
  latitude : ℚ
  longitude : ℚ
  demand : ℚ
deriving DecidableEq

/-- The per-location conversion loop of `optimize_routes`
(`endpoints.py` lines 618–632): validate coordinates, then
`demand = validate_demand(loc.demand) if loc.demand > 0 else 0.0`. -/
def process_location (l : LocationInput) : Except String Location := do
  let c ← validate_coordinates l.latitude l.longitude
  let d ← if 0 < l.demand then validate_demand l.demand else .ok 0
  .ok ⟨l.id.take 100, l.name.take 200, c.1, c.2, d⟩

/-- The validation performed by `optimize_routes` before any solving:
`validate_locations_count` followed by the conversion loop. -/
def optimize_request_validate (locations : List LocationInput) :
    Except String (List Location) := do
  let _ ← validate_locations_count locations.length
  locations.mapM process_location

/-- Everything `optimize_routes` (TSP branch) and `solve_tsp` check before
the external solver model is constructed: the request validation, followed
by `solve_tsp`'s own `len(locations) < 2` check. `depot_index` is forwarded
untouched. -/
def optimize_routes_tsp_pre (locations : List LocationInput) (depot_index : ℤ) :
    Except String (List Location × ℤ) := do
  let locs ← optimize_request_validate locations
  if locs.length < 2 then .error "Need at least 2 locations for routing"
  else .ok (locs, depot_index)

/-! ### Scaling and the solver contract (`solve_vrp`, lines 269–348) -/

/-- `demands = [int(loc.demand * 100) for loc in locations]` (line 302). -/
def scaled_demands (locations : List Location) : List ℤ :=
  locations.map fun l => pyInt (l.demand * 100)

/-- `[int(v.capacity * 100) for v in vehicles]` (line 326). -/
def scaled_capacities (vehicles : List Vehicle) : List ℤ :=
  vehicles.map fun v => pyInt (v.capacity * 100)

/-- Modelled from the spec: the observable contract of the external
OR-Tools solve for the multi-vehicle problem (§4.4, §9) — per vehicle the
ordered list of non-depot stops it visits, such that every non-depot node
is visited exactly once across the fleet and each vehicle's accumulated
demand (start cumul zero, so the depot's demand plus its stops' demands)
stays within its capacity. -/
def vrpValid (n depot : Nat) (demands caps : List ℤ) (sol : List (List Nat)) : Prop :=
  sol.length = caps.length ∧
  (∀ r ∈ sol, ∀ i ∈ r, i < n ∧ i ≠ depot) ∧
  sol.flatten.Nodup ∧
  (∀ i ∈ List.range n, i ≠ depot → i ∈ sol.flatten) ∧
  (∀ v ∈ List.range sol.length,
    demands.getD depot 0 + ((sol.getD v []).map fun i => demands.getD i 0).sum
      ≤ caps.getD v 0)

instance (n depot : Nat) (demands caps : List ℤ) (sol : List (List Nat)) :
    Decidable (vrpValid n depot demands caps sol) := by
  unfold vrpValid; infer_instance

/-- Modelled from the spec: the observable contract of the external
OR-Tools solve for the single-vehicle problem — the ordered list of
non-depot stops visited, covering every non-depot node exactly once. -/
def tspValidStops (n depot : Nat) (stops : List Nat) : Prop :=
  stops.Nodup ∧
  (∀ i ∈ stops, i < n ∧ i ≠ depot) ∧
  (∀ i ∈ List.range n, i ≠ depot → i ∈ stops)

instance (n depot : Nat) (stops : List Nat) :
    Decidable (tspValidStops n depot stops) := by
  unfold tspValidStops; infer_instance

/-! ### Solution extraction (`solve_tsp` lines 225–267, `solve_vrp` 350–407) -/

/-- Sum of the distance-matrix entries over consecutive pairs of a node
sequence; models the `+= GetArcCostForVehicle(previous_index, index, v)`
accumulation of the extraction loops. -/
def pathCost (D : Nat → Nat → ℤ) : List Nat → ℤ
  | [] => 0
  | [_] => 0
  | a :: b :: rest => D a b + pathCost D (b :: rest)

/-- The extracted TSP result (`solve_tsp` return value; the `route` field
of stop records parallels `route_indices` and is omitted). -/
structure TSPResult where
  total_distance_meters : ℤ
  number_of_stops : ℤ
  route_indices : List Nat
  return_to_depot : Bool
deriving DecidableEq

/-- The route-extraction part of `solve_tsp` (lines 225–267): the walk from
`routing.Start(0)` to the end node visits the depot and then the solver's
stop order, accumulating every arc cost including the final arc back to the
depot end node; the depot is appended to `route_indices` again only when
`return_to_depot` is true. -/
def solve_tsp_extract (D : Nat → Nat → ℤ) (depot : Nat) (stops : List Nat)
    (ret : Bool) : TSPResult :=
  let route := depot :: stops ++ (if ret then [depot] else [])
  { total_distance_meters := pathCost D (depot :: stops ++ [depot]),
    number_of_stops := (route.length : ℤ) - (if ret then 1 else 0),
    route_indices := route,
    return_to_depot := ret }

/-- One entry of `vehicle_routes` in the `solve_vrp` return value. -/
structure VehicleRouteOut where
  vehicle_id : String
  distance_meters : ℤ
  number_of_stops : ℤ
  route_indices : List Nat
deriving DecidableEq

/-- The `solve_vrp` return value (stop records omitted as in `TSPResult`). -/
structure VRPResult where
  vehicle_routes : List VehicleRouteOut
  total_distance_meters : ℤ
  vehicles_used : Nat
  total_vehicles : Nat
deriving DecidableEq

/-- One iteration of the per-vehicle extraction loop of `solve_vrp`
(lines 354–398): walk vehicle `v`'s route (depot then its stops),
accumulate every arc cost including the final arc back to the depot end
node, append the depot to `route_indices` only when `return_to_depot` is
true, and keep the entry only when `len(route) > 2`. -/
def vrp_vehicle_entry (D : Nat → Nat → ℤ) (depot : Nat) (vehicles : List Vehicle)
    (sol : List (List Nat)) (ret : Bool) (v : Nat) : Option VehicleRouteOut :=
  let stops := sol.getD v []
  let route := depot :: stops ++ (if ret then [depot] else [])
  if route.length > 2 then
    some { vehicle_id := (vehicles.getD v default).id,
           distance_meters := pathCost D (depot :: stops ++ [depot]),
           number_of_stops := (route.length : ℤ) - (if ret then 2 else 1),
           route_indices := route }
  else none

/-- The route-extraction part of `solve_vrp` (lines 350–407): the loop over
vehicles keeps the entries with `len(route) > 2`, and the total distance
sums exactly the kept entries. -/
def solve_vrp_extract (D : Nat → Nat → ℤ) (depot : Nat) (vehicles : List Vehicle)
    (sol : List (List Nat)) (ret : Bool) : VRPResult :=
  let kept := (List.range vehicles.length).filterMap
    (vrp_vehicle_entry D depot vehicles sol ret)
  { vehicle_routes := kept,
    total_distance_meters := (kept.map (·.distance_meters)).sum,
    vehicles_used := kept.length,
    total_vehicles := vehicles.length }

/-- `solve_vrp` end to end, with the external OR-Tools search abstracted as
a function of exactly the data the source passes into the routing model:
the location count, the vehicle count, the depot, the distance matrix, the
scaled demands and the scaled capacities. -/
def solve_vrp_full (D : Nat → Nat → ℤ)
    (solver : Nat → Nat → Nat → (Nat → Nat → ℤ) → List ℤ → List ℤ → List (List Nat))
    (locations : List Location) (vehicles : List Vehicle) (depot : Nat)
    (ret : Bool) : Except String VRPResult :=
  if locations.length < 2 then .error "Need at least 2 locations for routing"
  else if vehicles.isEmpty then .error "Need at least 1 vehicle"
  else
    let demands := scaled_demands locations
    let caps := scaled_capacities vehicles
    let sol := solver locations.length vehicles.length depot D demands caps
    .ok (solve_vrp_extract D depot vehicles sol ret)

/-! ### Theorems -/

/-- Membership in the reported `vehicle_routes`: exactly the vehicles whose
extracted route has more than two entries, with the record the loop builds. -/
theorem mem_vrp_vehicle_routes {D : Nat → Nat → ℤ} {depot : Nat}
    {vehicles : List Vehicle} {sol : List (List Nat)} {ret : Bool}
    {r : VehicleRouteOut} :
    r ∈ (solve_vrp_extract D depot vehicles sol ret).vehicle_routes ↔
    ∃ v, v < vehicles.length ∧
      2 < (depot :: sol.getD v [] ++ (if ret then [depot] else [])).length ∧
      r = { vehicle_id := (vehicles.getD v default).id,
            distance_meters := pathCost D (depot :: sol.getD v [] ++ [depot]),
            number_of_stops :=
              ((depot :: sol.getD v [] ++ (if ret then [depot] else [])).length : ℤ) -
                (if ret then 2 else 1),
            route_indices := depot :: sol.getD v [] ++ (if ret then [depot] else []) } := by
  constructor
  · intro hr
    obtain ⟨v, hvmem, hfv⟩ := List.mem_filterMap.mp hr
    rw [List.mem_range] at hvmem
    simp only [vrp_vehicle_entry] at hfv
    by_cases hc : 2 < (depot :: sol.getD v [] ++ (if ret then [depot] else [])).length
    · rw [if_pos hc] at hfv
      exact ⟨v, hvmem, hc, (Option.some.inj hfv).symm⟩
    · rw [if_neg hc] at hfv
      cases hfv
  · rintro ⟨v, hvlt, hc, rfl⟩
    refine List.mem_filterMap.mpr ⟨v, List.mem_range.mpr hvlt, ?_⟩
    simp only [vrp_vehicle_entry]
    rw [if_pos hc]

/-- C5: the claim says a stop with negative demand is rejected with a
specific reason string and never silently coerced. The code's own
`validate_demand` would reject it, but the endpoint's conversion loop
guards the call with `if loc.demand > 0` and silently coerces every
negative demand to `0.0`: `process_location` on demand `-5` succeeds with
demand `0` instead of failing. -/
theorem claim_C5_code_eval :
    validate_demand (-5) = .error "Demand must be non-negative" ∧
    process_location ⟨"s", "stop", 0, 0, -5⟩ = .ok ⟨"s", "stop", 0, 0, 0⟩ := by
  constructor
  · norm_num [validate_demand]
  · set_option maxRecDepth 4000 in rfl

/-- C7: the claim says an out-of-range `depot_index` fails with an
input-validation error. The code never validates `depot_index`: a request
with 2 valid stops and `depot_index = 5` passes every validation step the
endpoint and `solve_tsp` perform, and the out-of-range index is forwarded
to the external solver construction (where it can only fail internally). -/
theorem claim_C7_code_eval :
    optimize_routes_tsp_pre [⟨"a", "a", 0, 0, 0⟩, ⟨"b", "b", 1, 1, 0⟩] 5 =
      .ok ([⟨"a", "a", 0, 0, 0⟩, ⟨"b", "b", 1, 1, 0⟩], 5) := by
  set_option maxRecDepth 8000 in rfl

/-- C1 at the failing input: for 2 locations (depot + one stop of demand 1)
and one vehicle of capacity 10, `[[1]]` is a valid solver solution
(vehicle 0 visits stop 1, within capacity), yet with `return_to_depot =
false` (open tour) the extraction's `len(route) > 2` filter drops the
vehicle's entry, so the reported `vehicle_routes` are empty and stop 1
appears in no reported route — the union of reported non-depot stops
misses stop 1. -/
theorem claim_C1_code_eval :
    vrpValid 2 0 (scaled_demands [⟨"d", "depot", 0, 0, 0⟩, ⟨"s", "stop", 1, 1, 1⟩])
      (scaled_capacities [⟨"v1", 10, 1⟩]) [[1]] ∧
    (solve_vrp_extract (fun i j => if i = j then 0 else 5) 0
        [⟨"v1", 10, 1⟩] [[1]] false).vehicle_routes = [] := by
  have hd : scaled_demands [⟨"d", "depot", 0, 0, 0⟩, ⟨"s", "stop", 1, 1, 1⟩] = [0, 100] := by
    norm_num [scaled_demands, pyInt]
  have hc : scaled_capacities [⟨"v1", 10, 1⟩] = [1000] := by
    norm_num [scaled_capacities, pyInt]
  rw [hd, hc]
  exact ⟨by decide, by decide⟩

/-- A concrete asymmetric distance matrix for the C4 counterexample. -/
def Dex : Nat → Nat → ℤ := fun i j => if i = j then 0 else if i = 0 then 5 else 7

/-- C4 counterexample: for the open single-vehicle tour over 2 locations
(`return_to_depot = false`), the reported `route_indices` are `[0, 1]`
whose consecutive matrix entries sum to `5`, but the reported
`total_distance_meters` is `12`: the extraction loop also accumulates the
final arc from the last stop back to the depot end node. -/
theorem claim_C4_counterexample :
    tspValidStops 2 0 [1] ∧
    (solve_tsp_extract Dex 0 [1] false).route_indices = [0, 1] ∧
    (solve_tsp_extract Dex 0 [1] false).total_distance_meters ≠
      pathCost Dex (solve_tsp_extract Dex 0 [1] false).route_indices := by decide

/-- C6 counterexample: taking the pairwise great-circle distance to be
`0.0027` km everywhere, the source's matrix entry is `int(2.7) = 2` while
the spec's `round(2.7)` is `3` — the fallback matrix is built with
truncation, not rounding. -/
theorem claim_C6_counterexample :
    calculate_haversine_matrix 2 (fun _ _ => 27 / 10000) ≠
      haversine_matrix_spec 2 (fun _ _ => 27 / 10000) := by
  have h1 : pyInt ((27 : ℚ) / 10000 * 1000) = 2 := by norm_num [pyInt]; decide
  have h2 : round ((27 : ℚ) / 10000 * 1000) = 3 := by rw [round_eq]; norm_num
  simp only [calculate_haversine_matrix, haversine_matrix_spec, List.range_succ,
    List.range_zero, List.map, h1, h2]
  decide

/-- C8: whenever the OSRM road-distance query fails (any exception) or the
instance has more than 100 locations, `calculate_distance_matrix` returns
exactly the haversine fallback matrix, and (being total) propagates no
error to the caller. -/
theorem claim_C8 (n : Nat) (dist : Nat → Nat → ℚ) (osrm : OsrmOutcome)
    (h : (∃ msg, osrm = .failure msg) ∨ 100 < n) :
    calculate_distance_matrix n dist osrm = calculate_haversine_matrix n dist := by
  by_cases hn : n > 100
  · simp [calculate_distance_matrix, get_road_distance_matrix, hn]
  · rcases h with ⟨msg, rfl⟩ | hn'
    · simp [calculate_distance_matrix, get_road_distance_matrix, hn]
    · exact absurd hn' hn

/-- Witness for C8 at a concrete failing query over 1 location. -/
theorem claim_C8_witness :
    ((∃ msg, OsrmOutcome.failure "timeout" = OsrmOutcome.failure msg) ∨ 100 < 1) ∧
    calculate_distance_matrix 1 (fun _ _ => 0) (.failure "timeout") =
      calculate_haversine_matrix 1 (fun _ _ => 0) :=
  ⟨Or.inl ⟨"timeout", rfl⟩,
    claim_C8 1 (fun _ _ => 0) (.failure "timeout") (Or.inl ⟨"timeout", rfl⟩)⟩

/-- C2: for every solved single-vehicle instance (any valid solver stop
order over `n ≥ 2` locations) and either value of `return_to_depot`, the
extracted `route_indices` start at the depot, contain every non-depot stop
exactly once, and end at the depot exactly when `return_to_depot` is true. -/
theorem claim_C2 (D : Nat → Nat → ℤ) (n depot : Nat) (stops : List Nat) (ret : Bool)
    (hn : 2 ≤ n) (hdep : depot < n) (hv : tspValidStops n depot stops) :
    (solve_tsp_extract D depot stops ret).route_indices.head? = some depot ∧
    (∀ i, i < n → i ≠ depot →
      (solve_tsp_extract D depot stops ret).route_indices.count i = 1) ∧
    ((solve_tsp_extract D depot stops ret).route_indices.getLast? = some depot ↔
      ret = true) := by
  obtain ⟨hnd, hmem, hcov⟩ := hv
  refine ⟨rfl, ?_, ?_⟩
  · intro i hi hne
    have hmi : i ∈ stops := hcov i (List.mem_range.mpr hi) hne
    have h1 : stops.count i = 1 := List.count_eq_one_of_mem hnd hmi
    cases ret <;>
      simp [solve_tsp_extract, List.count_cons, List.count_append, h1, Ne.symm hne]
  · have hstops : stops ≠ [] := by
      have hi0 : (if depot = 0 then 1 else 0) ∈ stops := by
        refine hcov _ (List.mem_range.mpr ?_) ?_
        · split
          · omega
          · omega
        · split
          · omega
          · omega
      exact List.ne_nil_of_mem hi0
    cases ret with
    | false =>
        have hlast : (solve_tsp_extract D depot stops false).route_indices.getLast? =
            stops.getLast? := by
          show (([depot] ++ stops) ++ []).getLast? = stops.getLast?
          rw [List.append_nil]
          exact List.getLast?_append_of_ne_nil [depot] hstops
        rw [hlast, List.getLast?_eq_getLast stops hstops]
        have hne : stops.getLast hstops ≠ depot :=
          (hmem _ (List.getLast_mem hstops)).2
        simp [hne]
    | true =>
        have hlast : (solve_tsp_extract D depot stops true).route_indices.getLast? =
            some depot := by
          show ((depot :: stops) ++ [depot]).getLast? = some depot
          exact List.getLast?_concat _
        simp [hlast]

/-- Witness for C2: three locations, depot `0`, solver order `[2, 1]`,
open tour. -/
theorem claim_C2_witness :
    (2 ≤ 3 ∧ 0 < 3 ∧ tspValidStops 3 0 [2, 1]) ∧
    ((solve_tsp_extract (fun _ _ => 1) 0 [2, 1] false).route_indices.head? = some 0 ∧
    (∀ i, i < 3 → i ≠ 0 →
      (solve_tsp_extract (fun _ _ => 1) 0 [2, 1] false).route_indices.count i = 1) ∧
    ((solve_tsp_extract (fun _ _ => 1) 0 [2, 1] false).route_indices.getLast? = some 0 ↔
      false = true)) :=
  ⟨⟨by decide, by decide, by decide⟩,
    claim_C2 (fun _ _ => 1) 3 0 [2, 1] false (by decide) (by decide) (by decide)⟩

/-- C4 (amended): the reported distance equals the sum of consecutive
matrix entries of `route_indices` extended — when `return_to_depot` is
false — by the final return arc to the depot (for closed tours the
extension is empty, so the distance is exactly the consecutive-pair sum);
the reported VRP total equals the sum of the reported per-vehicle
distances. -/
theorem claim_C4 (D : Nat → Nat → ℤ) (depot : Nat) (stops : List Nat)
    (vehicles : List Vehicle) (sol : List (List Nat)) (ret : Bool) :
    (solve_tsp_extract D depot stops ret).total_distance_meters =
      pathCost D ((solve_tsp_extract D depot stops ret).route_indices ++
        (if ret then [] else [depot])) ∧
    ((solve_vrp_extract D depot vehicles sol ret).vehicle_routes.map
        (·.distance_meters)) =
      ((solve_vrp_extract D depot vehicles sol ret).vehicle_routes.map
        (fun r => pathCost D (r.route_indices ++ (if ret then [] else [depot])))) ∧
    (solve_vrp_extract D depot vehicles sol ret).total_distance_meters =
      ((solve_vrp_extract D depot vehicles sol ret).vehicle_routes.map
        (·.distance_meters)).sum := by
  refine ⟨?_, ?_, rfl⟩
  · cases ret <;> simp [solve_tsp_extract]
  · apply List.map_congr_left
    intro r hr
    obtain ⟨v, hvlt, hc, rfl⟩ := mem_vrp_vehicle_routes.mp hr
    cases ret <;> simp

/-- C6 (amended): the fallback matrix is `n × n` with every diagonal entry
`0` and every off-diagonal entry `[i][j]` equal to `int(dist_km * 1000)` —
the kilometer estimate scaled to meters and truncated toward zero (the
source uses Python `int(...)`, not `round(...)`). -/
theorem claim_C6 (n : Nat) (dist : Nat → Nat → ℚ) (i j : Nat)
    (hi : i < n) (hj : j < n) :
    (calculate_haversine_matrix n dist).length = n ∧
    ((calculate_haversine_matrix n dist).getD i []).length = n ∧
    ((calculate_haversine_matrix n dist).getD i []).getD i 0 = 0 ∧
    (i ≠ j → ((calculate_haversine_matrix n dist).getD i []).getD j 0 =
      pyInt (dist i j * 1000)) := by
  have hrow : (calculate_haversine_matrix n dist).getD i [] =
      (List.range n).map fun j => if i = j then 0 else pyInt (dist i j * 1000) := by
    rw [calculate_haversine_matrix, List.getD_eq_getElem?_getD, List.getElem?_map,
      List.getElem?_range hi]
    rfl
  refine ⟨by simp [calculate_haversine_matrix], by rw [hrow]; simp, ?_, ?_⟩
  · rw [hrow, List.getD_eq_getElem?_getD, List.getElem?_map, List.getElem?_range hi]
    simp
  · intro hne
    rw [hrow, List.getD_eq_getElem?_getD, List.getElem?_map, List.getElem?_range hj]
    simp [hne]

/-- Witness for C6 on a 2×2 instance. -/
theorem claim_C6_witness :
    (0 < 2 ∧ 1 < 2) ∧
    ((calculate_haversine_matrix 2 (fun _ _ => 27 / 10000)).length = 2 ∧
    ((calculate_haversine_matrix 2 (fun _ _ => 27 / 10000)).getD 0 []).length = 2 ∧
    ((calculate_haversine_matrix 2 (fun _ _ => 27 / 10000)).getD 0 []).getD 0 0 = 0 ∧
    ((0 : Nat) ≠ 1 → ((calculate_haversine_matrix 2 (fun _ _ => 27 / 10000)).getD 0 []).getD 1 0 =
      pyInt ((27 : ℚ) / 10000 * 1000))) :=
  ⟨⟨by decide, by decide⟩,
    claim_C6 2 (fun _ _ => 27 / 10000) 0 1 (by decide) (by decide)⟩

/-- C9: the modelled `_haversine_distance` is symmetric in its two
coordinate pairs, and the distance from any coordinate pair to itself is
`0` (for all real coordinates, hence for all valid ones). -/
theorem claim_C9 (lat1 lon1 lat2 lon2 : ℝ) :
    haversine_distance lat1 lon1 lat2 lon2 = haversine_distance lat2 lon2 lat1 lon1 ∧
    haversine_distance lat1 lon1 lat1 lon1 = 0 := by
  have key : ∀ x y : ℝ, Real.sin ((x - y) / 2) ^ 2 = Real.sin ((y - x) / 2) ^ 2 := by
    intro x y
    rw [show (x - y) / 2 = -((y - x) / 2) by ring, Real.sin_neg, neg_sq]
  constructor
  · simp only [haversine_distance]
    rw [key (lat2 * (Real.pi / 180)) (lat1 * (Real.pi / 180)),
      key (lon2 * (Real.pi / 180)) (lon1 * (Real.pi / 180)),
      mul_comm (Real.cos (lat1 * (Real.pi / 180))) (Real.cos (lat2 * (Real.pi / 180)))]
  · simp [haversine_distance]

/-- C3: demands and capacities are scaled by the same fixed multiplier 100
(`scaled_demands` and `scaled_capacities` embed `int(demand*100)` and
`int(capacity*100)` from the source), and for every valid solver solution
over these scaled values, every reported vehicle route's non-depot stops
carry total scaled demand at most that vehicle's scaled capacity (the
depot's scaled demand being nonnegative, as endpoint validation ensures). -/
theorem claim_C3 (D : Nat → Nat → ℤ) (locations : List Location)
    (vehicles : List Vehicle) (depot : Nat) (ret : Bool) (sol : List (List Nat))
    (hdep : 0 ≤ (scaled_demands locations).getD depot 0)
    (hv : vrpValid locations.length depot (scaled_demands locations)
      (scaled_capacities vehicles) sol) :
    ∀ r ∈ (solve_vrp_extract D depot vehicles sol ret).vehicle_routes,
      ∃ v, v < vehicles.length ∧
        r.vehicle_id = (vehicles.getD v default).id ∧
        ((r.route_indices.filter (fun i => i ≠ depot)).map
          (fun i => (scaled_demands locations).getD i 0)).sum ≤
          (scaled_capacities vehicles).getD v 0 := by
  obtain ⟨hlen, hmem, hnd, hcov, hcap⟩ := hv
  intro r hr
  obtain ⟨v, hvlt, hc, rfl⟩ := mem_vrp_vehicle_routes.mp hr
  refine ⟨v, hvlt, rfl, ?_⟩
  have hvsol : v < sol.length := by
    rw [hlen]
    simpa [scaled_capacities] using hvlt
  have hstops : ∀ x ∈ sol.getD v [], x ≠ depot := by
    intro x hx
    have hmemv : sol.getD v [] ∈ sol := by
      rw [List.getD_eq_getElem sol [] hvsol]
      exact List.getElem_mem hvsol
    exact (hmem _ hmemv x hx).2
  have hfilter : ((depot :: sol.getD v [] ++ (if ret then [depot] else [])).filter
      (fun i => i ≠ depot)) = sol.getD v [] := by
    have hstops' : ∀ x ∈ sol[v]?.getD [], x ≠ depot := by
      simpa [List.getD_eq_getElem?_getD] using hstops
    cases ret <;>
      (simp [List.filter_cons, List.filter_append, List.filter_eq_self]
       exact hstops')
  dsimp only
  rw [hfilter]
  calc ((sol.getD v []).map (fun i => (scaled_demands locations).getD i 0)).sum
      ≤ (scaled_demands locations).getD depot 0 +
        ((sol.getD v []).map (fun i => (scaled_demands locations).getD i 0)).sum :=
        le_add_of_nonneg_left hdep
    _ ≤ (scaled_capacities vehicles).getD v 0 :=
        hcap v (List.mem_range.mpr hvsol)

/-- Witness for C3: depot plus one stop of demand 1, one vehicle of
capacity 2, solver assigns the stop to the vehicle, closed tour. -/
theorem claim_C3_witness :
    (0 ≤ (scaled_demands [(⟨"d", "depot", 0, 0, 0⟩ : Location),
        ⟨"s", "stop", 1, 1, 1⟩]).getD 0 0) ∧
    vrpValid ([(⟨"d", "depot", 0, 0, 0⟩ : Location), ⟨"s", "stop", 1, 1, 1⟩].length) 0
      (scaled_demands [⟨"d", "depot", 0, 0, 0⟩, ⟨"s", "stop", 1, 1, 1⟩])
      (scaled_capacities [⟨"v1", 2, 1⟩]) [[1]] ∧
    (∀ r ∈ (solve_vrp_extract (fun _ _ => 3) 0 [(⟨"v1", 2, 1⟩ : Vehicle)]
        [[1]] true).vehicle_routes,
      ∃ v, v < [(⟨"v1", 2, 1⟩ : Vehicle)].length ∧
        r.vehicle_id = ([(⟨"v1", 2, 1⟩ : Vehicle)].getD v default).id ∧
        ((r.route_indices.filter (fun i => i ≠ 0)).map
          (fun i => (scaled_demands [⟨"d", "depot", 0, 0, 0⟩,
            ⟨"s", "stop", 1, 1, 1⟩]).getD i 0)).sum ≤
          (scaled_capacities [(⟨"v1", 2, 1⟩ : Vehicle)]).getD v 0) := by
  have hd : scaled_demands [⟨"d", "depot", 0, 0, 0⟩, ⟨"s", "stop", 1, 1, 1⟩] =
      [0, 100] := by
    norm_num [scaled_demands, pyInt]
  have hc : scaled_capacities [(⟨"v1", 2, 1⟩ : Vehicle)] = [200] := by
    norm_num [scaled_capacities, pyInt]
  have h1 : 0 ≤ (scaled_demands [(⟨"d", "depot", 0, 0, 0⟩ : Location),
      ⟨"s", "stop", 1, 1, 1⟩]).getD 0 0 := by
    rw [hd]; decide
  have h2 : vrpValid ([(⟨"d", "depot", 0, 0, 0⟩ : Location),
      ⟨"s", "stop", 1, 1, 1⟩].length) 0
      (scaled_demands [⟨"d", "depot", 0, 0, 0⟩, ⟨"s", "stop", 1, 1, 1⟩])
      (scaled_capacities [⟨"v1", 2, 1⟩]) [[1]] := by
    rw [hd, hc]; decide
  exact ⟨h1, h2, claim_C3 (fun _ _ => 3) _ _ 0 true [[1]] h1 h2⟩

/-- C10: `cost_per_km` never influences `solve_vrp`'s output — two runs
whose vehicle lists agree on `id` and `capacity` (differing arbitrarily in
`cost_per_km`) produce identical results for any behaviour of the external
solver, which only receives the counts, depot, distance matrix and scaled
demands/capacities. -/
theorem claim_C10 (D : Nat → Nat → ℤ)
    (solver : Nat → Nat → Nat → (Nat → Nat → ℤ) → List ℤ → List ℤ → List (List Nat))
    (locations : List Location) (depot : Nat) (ret : Bool)
    (vehicles₁ vehicles₂ : List Vehicle)
    (h : vehicles₁.map (fun v => (v.id, v.capacity)) =
      vehicles₂.map (fun v => (v.id, v.capacity))) :
    solve_vrp_full D solver locations vehicles₁ depot ret =
      solve_vrp_full D solver locations vehicles₂ depot ret := by
  have hid : vehicles₁.map (·.id) = vehicles₂.map (·.id) := by
    have h2 := congrArg (List.map Prod.fst) h
    simpa only [List.map_map, Function.comp] using h2
  have hcapq : vehicles₁.map (·.capacity) = vehicles₂.map (·.capacity) := by
    have h2 := congrArg (List.map Prod.snd) h
    simpa only [List.map_map, Function.comp] using h2
  have hlen : vehicles₁.length = vehicles₂.length := by
    have h2 := congrArg List.length h
    simpa using h2
  have hcaps : scaled_capacities vehicles₁ = scaled_capacities vehicles₂ := by
    have h2 := congrArg (List.map fun c : ℚ => pyInt (c * 100)) hcapq
    simpa only [scaled_capacities, List.map_map, Function.comp] using h2
  have hgetid : ∀ v : Nat,
      (vehicles₁.getD v default).id = (vehicles₂.getD v default).id := by
    intro v
    have h2 := congrArg (fun l => l[v]?) hid
    simp only [List.getElem?_map] at h2
    rw [List.getD_eq_getElem?_getD, List.getD_eq_getElem?_getD]
    cases e1 : vehicles₁[v]? with
    | none =>
        cases e2 : vehicles₂[v]? with
        | none => rfl
        | some b => rw [e1, e2] at h2; cases h2
    | some a =>
        cases e2 : vehicles₂[v]? with
        | none => rw [e1, e2] at h2; cases h2
        | some b =>
            rw [e1, e2] at h2
            simpa using h2
  have hentry : vrp_vehicle_entry D depot vehicles₁ =
      vrp_vehicle_entry D depot vehicles₂ := by
    funext sol' ret' v
    simp only [vrp_vehicle_entry, hgetid v]
  have hext : ∀ sol', solve_vrp_extract D depot vehicles₁ sol' ret =
      solve_vrp_extract D depot vehicles₂ sol' ret := by
    intro sol'
    simp only [solve_vrp_extract, hentry, hlen]
  have hempty : vehicles₁.isEmpty = vehicles₂.isEmpty := by
    cases v1 : vehicles₁ <;> cases v2 : vehicles₂ <;> simp_all
  unfold solve_vrp_full
  rw [hempty, hlen, hcaps]
  simp only [hext]

/-- Witness for C10: two singleton fleets identical except `cost_per_km`
(1 vs 99). -/
theorem claim_C10_witness :
    ([(⟨"a", 10, 1⟩ : Vehicle)].map (fun v => (v.id, v.capacity)) =
      [(⟨"a", 10, 99⟩ : Vehicle)].map (fun v => (v.id, v.capacity))) ∧
    solve_vrp_full (fun _ _ => 4) (fun _ _ _ _ _ _ => [[1]])
        [⟨"d", "depot", 0, 0, 0⟩, ⟨"s", "stop", 1, 1, 1⟩] [⟨"a", 10, 1⟩] 0 true =
      solve_vrp_full (fun _ _ => 4) (fun _ _ _ _ _ _ => [[1]])
        [⟨"d", "depot", 0, 0, 0⟩, ⟨"s", "stop", 1, 1, 1⟩] [⟨"a", 10, 99⟩] 0 true :=
  ⟨rfl, claim_C10 (fun _ _ => 4) (fun _ _ _ _ _ _ => [[1]])
    [⟨"d", "depot", 0, 0, 0⟩, ⟨"s", "stop", 1, 1, 1⟩] 0 true
    [⟨"a", 10, 1⟩] [⟨"a", 10, 99⟩] rfl⟩
